import Mathlib

/-!
Shallow embedding of the api_yamdb repository (Django REST Framework
serializers in `api/serializers.py` and the schema migration
`reviews/migrations/0002_initial.py`), together with theorems settling the
frozen claims about it.

Conventions:
* Python `raise serializers.ValidationError(...)` is embedded as
  `Except.error msg` (messages are short ASCII descriptions of the Russian
  originals); a normal return is `Except.ok`.
* Database rows and serializer inputs are records of `Nat`/`String`/`Option`.
* Framework behaviour that the source declares (CASCADE foreign keys,
  a `UniqueConstraint`, `read_only` serializer fields, `fields = ALL`
  expansion) is embedded with its documented meaning.
-/

set_option autoImplicit false

namespace ApiYamdb

/-- JSON values produced by serialization. -/
inductive Json where
  | str (s : String)
  | num (n : Nat)
  deriving DecidableEq

/-- A row of the users table (users.models.User): username, email, names,
bio, role, confirmation_code. -/
structure UserRec where
  username : String
  email : String
  first_name : String
  last_name : String
  bio : String
  role : String
  confirmation_code : String
  deriving DecidableEq

/-- A row of the titles table (reviews.models.Title), restricted to the
fields the claims use: primary key and name. -/
structure TitleRow where
  id : Nat
  name : String
  deriving DecidableEq

/-- A row of the reviews table. The foreign keys `title` and `author`
(both `on_delete=CASCADE`) are declared in 0002_initial.py; the scalar
fields text, score, pub_date come from the spec data model (their declaring
migration 0001_initial.py is not under src). -/
structure ReviewRow where
  id : Nat
  text : String
  score : Nat
  pub_date : String
  title_id : Nat
  author_id : Nat
  deriving DecidableEq

/-- A row of the comments table. The foreign keys `review` and `author`
(both `on_delete=CASCADE`) are declared in 0002_initial.py; text and
pub_date come from the spec data model. -/
structure CommentRow where
  id : Nat
  text : String
  pub_date : String
  review_id : Nat
  author_id : Nat
  deriving DecidableEq

/-- The relational state the review/comment claims range over. -/
structure DBState where
  titles : List TitleRow
  reviews : List ReviewRow
  comments : List CommentRow
  deriving DecidableEq

/-- `Title.objects.filter(pk=title_id).exists()` — whether
`get_object_or_404(Title, pk=title_id)` succeeds. -/
def titleExists (s : DBState) (title_id : Nat) : Bool :=
  s.titles.any (fun t => t.id == title_id)

/-- `Review.objects.filter(title=title, author=author).exists()` from
ReviewSerializer.validate. -/
def reviewExists (s : DBState) (title_id author_id : Nat) : Bool :=
  s.reviews.any (fun r => r.title_id == title_id && r.author_id == author_id)

/-- Embedding of `ReviewSerializer.validate` (serializers.py lines 68-81).
`method` is `request.method`, `author_id` is `request.user`, `title_id`
comes from the view kwargs; `get_object_or_404` is the 404 branch; on POST
an existing review by the same author for the same title raises a
ValidationError; otherwise the data is returned unchanged. -/
def ReviewSerializer_validate {α : Type} (method : String) (s : DBState)
    (title_id author_id : Nat) (data : α) : Except String α :=
  if titleExists s title_id = false then .error "404 title not found"
  else if method = "POST" then
    if reviewExists s title_id author_id then
      .error "duplicate review"
    else .ok data
  else .ok data

/-- Embedding of inserting a review row under the database constraint
`UniqueConstraint(fields=(title, author), name=unique review)` added by
0002_initial.py: the insert fails when a row with the same (title, author)
pair already exists. -/
def dbInsertReview (s : DBState) (r : ReviewRow) : Except String DBState :=
  if reviewExists s r.title_id r.author_id then
    .error "unique constraint violation"
  else
    .ok { s with reviews := r :: s.reviews }

/-- The invariant "at most one Review per (title, author) pair": no two
list positions carry the same pair. -/
def uniqueReviewOk : List ReviewRow → Bool
  | [] => true
  | r :: rs =>
      !(rs.any (fun x => x.title_id == r.title_id && x.author_id == r.author_id))
        && uniqueReviewOk rs

/-- Cascade semantics of deleting a Title, as declared by the
`on_delete=CASCADE` foreign keys in 0002_initial.py: reviews of the title
are deleted, and comments of those deleted reviews are deleted in turn. -/
def deleteTitle (s : DBState) (tid : Nat) : DBState :=
  let dead := s.reviews.filter (fun r => r.title_id == tid)
  { titles := s.titles.filter (fun t => !(t.id == tid)),
    reviews := s.reviews.filter (fun r => !(r.title_id == tid)),
    comments := s.comments.filter
      (fun c => !(dead.any (fun r => r.id == c.review_id))) }

/-- Cascade semantics of deleting a Review: its comments are deleted. -/
def deleteReview (s : DBState) (rid : Nat) : DBState :=
  { titles := s.titles,
    reviews := s.reviews.filter (fun r => !(r.id == rid)),
    comments := s.comments.filter (fun c => !(c.review_id == rid)) }

/-- Modelled from the spec: `users.utils.username_validate` is not under
src; the spec describes it as a string-format validator for usernames.
A username passes when it is nonempty and made of letters, digits, or the
characters @ . + - _ ; otherwise a ValidationError is raised. -/
def username_validate (s : String) : Except String Unit :=
  if s.length > 0 &&
      s.data.all (fun ch =>
        ch.isAlphanum || ch == '@' || ch == '.' || ch == '+'
          || ch == '-' || ch == '_') then
    .ok ()
  else .error "invalid username"

/-- Whether a character list has the shape of an email: exactly one @,
separating a nonempty local part from a nonempty domain. -/
def email_format_ok (cs : List Char) : Bool :=
  match cs.span (fun ch => !(ch == '@')) with
  | (local_part, '@' :: domain) =>
      local_part.length > 0 && domain.length > 0 && !(domain.contains '@')
  | _ => false

/-- Modelled from the spec: `users.utils.email_validate` is not under src;
the spec describes it as a string-format validator for emails. An email
passes when it contains a single @ separating a nonempty local part from a
nonempty domain; otherwise a ValidationError is raised. -/
def email_validate (s : String) : Except String Unit :=
  if email_format_ok s.data then .ok () else .error "invalid email"

/-- Modelled from the spec: `users.models.CHOICE_ROLES` is not under src;
the spec constrains role values to the enumerated set of user, moderator
and admin, so CHOICE_ROLES is the usual Django choices sequence of
(value, label) pairs over that set. -/
def CHOICE_ROLES : List (String × String) :=
  [("user", "user"), ("moderator", "moderator"), ("admin", "admin")]

/-- Embedding of `AdminOrSuperAdminUserSerializer.validate` (serializers.py
lines 203-211): validate username and email, then raise a ValidationError
when `any(role in i for i in CHOICE_ROLES)` holds, i.e. when the submitted
role occurs in one of the choice pairs. -/
def AdminOrSuperAdminUserSerializer_validate
    (username email role : String) : Except String Unit :=
  match username_validate username with
  | .error e => .error e
  | .ok _ =>
    match email_validate email with
    | .error e => .error e
    | .ok _ =>
      if CHOICE_ROLES.any (fun i => role == i.1 || role == i.2) then
        .error "nonexistent role"
      else .ok ()

/-- Embedding of `SignUpSerializer.validate` (serializers.py lines
234-237): `username_validate(str(data.get(username)))` followed by
`email_validate(str(data.get(username)))` — the source passes the
username, not the email, to the email validator. -/
def SignUpSerializer_validate (username email : String) : Except String Unit :=
  match username_validate username with
  | .error e => .error e
  | .ok _ => email_validate username

/-- The string `str(get_unique_confirmation_code)` computed in both
`create` methods (serializers.py lines 126 and 197): the function object is
stringified without being called, yielding the fixed repr of the function
object rather than a fresh code. -/
def get_unique_confirmation_code_str : String :=
  "function get_unique_confirmation_code"

/-- Validated data handed to the user-creation methods. -/
structure ValidatedUser where
  username : String
  email : String
  first_name : String
  last_name : String
  bio : String
  role : String
  deriving DecidableEq

/-- Embedding of `UserSerializer.create` (serializers.py lines 125-130):
creates a user from the validated data with
`confirmation_code=str(get_unique_confirmation_code)`. -/
def UserSerializer_create (v : ValidatedUser) : UserRec :=
  { username := v.username,
    email := v.email,
    first_name := v.first_name,
    last_name := v.last_name,
    bio := v.bio,
    role := v.role,
    confirmation_code := get_unique_confirmation_code_str }

/-- Embedding of `AdminOrSuperAdminUserSerializer.create` (serializers.py
lines 196-201), identical to UserSerializer.create. -/
def AdminOrSuperAdminUserSerializer_create (v : ValidatedUser) : UserRec :=
  { username := v.username,
    email := v.email,
    first_name := v.first_name,
    last_name := v.last_name,
    bio := v.bio,
    role := v.role,
    confirmation_code := get_unique_confirmation_code_str }

/-- A profile-update request body for MeSerializer: each field is optional
(PATCH sends only the fields to change). -/
structure MeInput where
  email : Option String
  username : Option String
  first_name : Option String
  last_name : Option String
  bio : Option String
  role : Option String
  deriving DecidableEq

/-- The validated data MeSerializer builds from a request: `role` is
declared `read_only=True` (serializers.py line 144), so the framework
drops any submitted role before validation and update. -/
structure MeValidated where
  email : Option String
  username : Option String
  first_name : Option String
  last_name : Option String
  bio : Option String
  deriving DecidableEq

/-- Field deserialization of MeSerializer: all writable fields pass
through; the read-only `role` is discarded whatever the request sent. -/
def MeSerializer_to_internal (inp : MeInput) : MeValidated :=
  { email := inp.email,
    username := inp.username,
    first_name := inp.first_name,
    last_name := inp.last_name,
    bio := inp.bio }

/-- ModelSerializer.update: set each attribute present in the validated
data on the instance and save; absent fields keep the stored value. -/
def MeSerializer_update (inst : UserRec) (v : MeValidated) : UserRec :=
  { inst with
    email := v.email.getD inst.email,
    username := v.username.getD inst.username,
    first_name := v.first_name.getD inst.first_name,
    last_name := v.last_name.getD inst.last_name,
    bio := v.bio.getD inst.bio }

/-- A profile update through MeSerializer end to end: deserialize (dropping
the read-only role), then update the instance. -/
def MeSerializer_save (inst : UserRec) (inp : MeInput) : UserRec :=
  MeSerializer_update inst (MeSerializer_to_internal inp)

/-- Modelled from the spec: `settings.MAX_CODE_LENGTH` (the settings module
is not under src), the maximum length of the confirmation-code CharField. -/
def MAX_CODE_LENGTH : Nat := 255

/-- A DRF CharField with `required=True` and the default
`allow_blank=False`: a missing value is rejected as required, a blank
string is rejected as blank, an over-long string is rejected. -/
def char_field_run (max_length : Nat) (v : Option String) :
    Except String String :=
  match v with
  | none => .error "field required"
  | some s =>
      if s = "" then .error "field may not be blank"
      else if max_length < s.length then .error "field too long"
      else .ok s

/-- Embedding of `TokenSerializer.validate` (serializers.py lines 255-263):
`data.get(confirmation_code)` is None exactly when the key is absent; in
that case a ValidationError (confirmation code may not be empty) is
raised; otherwise the username is validated and the data returned. -/
def TokenSerializer_validate (username : String)
    (confirmation_code : Option String) :
    Except String (String × Option String) :=
  match confirmation_code with
  | none => .error "confirmation code may not be empty"
  | some c =>
      match username_validate username with
      | .error e => .error e
      | .ok _ => .ok (username, some c)

/-- TokenSerializer validation of a whole request: the fields declared at
serializers.py lines 242-246 run first (CharFields, required, not blank),
then `validate` runs on the resulting data. -/
def TokenSerializer_run_validation (username confirmation_code : Option String) :
    Except String (String × Option String) :=
  match char_field_run 150 username with
  | .error e => .error e
  | .ok u =>
      match char_field_run MAX_CODE_LENGTH confirmation_code with
      | .error e => .error e
      | .ok c => TokenSerializer_validate u (some c)

/-- A hydrated Title instance as seen through its foreign keys. -/
structure TitleObj where
  id : Nat
  name : String
  deriving DecidableEq

/-- A hydrated Review instance: the `author` and `title` attributes resolve
to the related objects. Scalar fields text, score, pub_date are modelled
from the spec data model (0001_initial.py is not under src). -/
structure ReviewObj where
  id : Nat
  text : String
  score : Nat
  pub_date : String
  author : UserRec
  title : TitleObj
  deriving DecidableEq

/-- A hydrated Comment instance: the model field pointing at the parent
review is named `review` (0002_initial.py lines 43-47); `author` resolves
to the related user. -/
structure CommentObj where
  id : Nat
  text : String
  pub_date : String
  author : UserRec
  review : ReviewObj
  deriving DecidableEq

/-- The field list of ReviewSerializer under `fields = ALL`: the primary
key, the declared fields (author and title, serializers.py lines 59-66),
then the model fields. -/
def reviewFieldNames : List String :=
  ["id", "author", "title", "text", "score", "pub_date"]

/-- Rendering one ReviewSerializer field of a Review instance: the
declared SlugRelatedFields render `author` by its username and `title` by
its name; the model fields render their values. -/
def reviewGetField (r : ReviewObj) (name : String) : Option Json :=
  if name = "id" then some (.num r.id)
  else if name = "author" then some (.str r.author.username)
  else if name = "title" then some (.str r.title.name)
  else if name = "text" then some (.str r.text)
  else if name = "score" then some (.num r.score)
  else if name = "pub_date" then some (.str r.pub_date)
  else none

/-- `ReviewSerializer` serialization of a Review instance: render every
field of the field list in order. -/
def serializeReview (r : ReviewObj) : List (String × Json) :=
  reviewFieldNames.filterMap
    (fun name => (reviewGetField r name).map (fun v => (name, v)))

/-- The field list of CommentSerializer under `fields = ALL`: the primary
key, the declared fields (`author` and `reviews`, serializers.py lines
89-94), then the model fields text, pub_date and the forward relation
`review`. -/
def commentFieldNames : List String :=
  ["id", "author", "reviews", "text", "pub_date", "review"]

/-- Attribute lookup for one CommentSerializer field on a Comment
instance. The declared slug field is named `reviews`, but a Comment
instance has no attribute of that name — its relation to the parent is the
model field `review` — so the lookup for `reviews` fails (none embeds the
AttributeError Python raises). -/
def commentGetField (c : CommentObj) (name : String) : Option Json :=
  if name = "id" then some (.num c.id)
  else if name = "author" then some (.str c.author.username)
  else if name = "text" then some (.str c.text)
  else if name = "pub_date" then some (.str c.pub_date)
  else if name = "review" then some (.num c.review.id)
  else none

/-- Render a list of fields of a Comment instance, failing on the first
field whose attribute lookup fails, as DRF serialization does. -/
def renderCommentFields (c : CommentObj) :
    List String → Except String (List (String × Json))
  | [] => .ok []
  | name :: rest =>
      match commentGetField c name with
      | none => .error ("AttributeError: " ++ name)
      | some v =>
          match renderCommentFields c rest with
          | .error e => .error e
          | .ok tail => .ok ((name, v) :: tail)

/-- `CommentSerializer` serialization of a Comment instance. -/
def serializeComment (c : CommentObj) : Except String (List (String × Json)) :=
  renderCommentFields c commentFieldNames

/-- Whether a serializer outcome is a validation error (a 400 response). -/
def isErr {α : Type} : Except String α → Bool
  | .error _ => true
  | .ok _ => false

/-- C1: a second review for the same title by the same author is rejected:
on a POST, ReviewSerializer.validate raises a ValidationError when a
review with that (title, author) pair exists; the database insert fails
under the UniqueConstraint on (title, author); and a successful insert
preserves the at-most-one-review-per-(title, author) invariant. -/
theorem review_uniqueness_enforced :
    (∀ (s : DBState) (t a d : Nat),
        titleExists s t = true → reviewExists s t a = true →
        ReviewSerializer_validate "POST" s t a d = .error "duplicate review")
    ∧ (∀ (s : DBState) (r : ReviewRow),
        reviewExists s r.title_id r.author_id = true →
        dbInsertReview s r = .error "unique constraint violation")
    ∧ (∀ (s : DBState) (r : ReviewRow) (s2 : DBState),
        uniqueReviewOk s.reviews = true → dbInsertReview s r = .ok s2 →
        uniqueReviewOk s2.reviews = true) := by
  refine ⟨?_, ?_, ?_⟩
  · intro s t a d ht hr
    simp [ReviewSerializer_validate, ht, hr]
  · intro s r hr
    simp [dbInsertReview, hr]
  · intro s r s2 hu hins
    unfold dbInsertReview at hins
    by_cases h : reviewExists s r.title_id r.author_id
    · simp [h] at hins
    · simp [h] at hins
      subst hins
      unfold reviewExists at h
      simp only [uniqueReviewOk, Bool.and_eq_true, Bool.not_eq_true]
      exact ⟨by simpa using h, hu⟩

/-- C1 witness: in a state holding title 1 and a review by author 1 on
title 1, a POST by author 1 on title 1 is rejected, the database refuses a
second (title 1, author 1) row, and inserting a review by another author
keeps the uniqueness invariant. -/
theorem review_uniqueness_enforced_witness :
    ReviewSerializer_validate "POST"
        ⟨[⟨1, "t"⟩], [⟨1, "good", 5, "2023", 1, 1⟩], []⟩ 1 1 0
      = .error "duplicate review"
    ∧ dbInsertReview ⟨[⟨1, "t"⟩], [⟨1, "good", 5, "2023", 1, 1⟩], []⟩
        ⟨2, "again", 4, "2023", 1, 1⟩ = .error "unique constraint violation"
    ∧ uniqueReviewOk
        (DBState.mk [⟨1, "t"⟩]
          [⟨2, "other", 4, "2023", 1, 2⟩, ⟨1, "good", 5, "2023", 1, 1⟩]
          []).reviews = true :=
  ⟨review_uniqueness_enforced.1 ⟨[⟨1, "t"⟩], [⟨1, "good", 5, "2023", 1, 1⟩], []⟩
      1 1 0 rfl rfl,
   review_uniqueness_enforced.2.1 ⟨[⟨1, "t"⟩], [⟨1, "good", 5, "2023", 1, 1⟩], []⟩
      ⟨2, "again", 4, "2023", 1, 1⟩ rfl,
   review_uniqueness_enforced.2.2 ⟨[⟨1, "t"⟩], [⟨1, "good", 5, "2023", 1, 1⟩], []⟩
      ⟨2, "other", 4, "2023", 1, 2⟩
      (DBState.mk [⟨1, "t"⟩]
        [⟨2, "other", 4, "2023", 1, 2⟩, ⟨1, "good", 5, "2023", 1, 1⟩] [])
      rfl rfl⟩

/-- C10: ReviewSerializer.validate performs the duplicate-review check
only on POST: for any other request method (with the title present), the
data comes back unchanged, whatever reviews exist in the state. -/
theorem review_validate_only_checks_on_post :
    ∀ {α : Type} (method : String) (s : DBState) (t a : Nat) (d : α),
      method ≠ "POST" → titleExists s t = true →
      ReviewSerializer_validate method s t a d = .ok d := by
  intro α method s t a d hm ht
  simp [ReviewSerializer_validate, ht, hm]

/-- C10 witness: a PATCH in a state that already holds a review by author
1 on title 1 passes validation with the data returned unchanged. -/
theorem review_validate_only_checks_on_post_witness :
    reviewExists ⟨[⟨1, "t"⟩], [⟨1, "good", 5, "2023", 1, 1⟩], []⟩ 1 1 = true
    ∧ ReviewSerializer_validate "PATCH"
        ⟨[⟨1, "t"⟩], [⟨1, "good", 5, "2023", 1, 1⟩], []⟩ 1 1 (7 : Nat)
      = .ok 7 :=
  ⟨rfl,
   review_validate_only_checks_on_post "PATCH"
     ⟨[⟨1, "t"⟩], [⟨1, "good", 5, "2023", 1, 1⟩], []⟩ 1 1 7
     (by decide) rfl⟩

/-- C7: cascading deletes. Deleting a Title leaves no review of that
title; if every comment referenced an existing review, that referential
integrity survives the cascade; deleting a Review leaves neither the
review nor any comment attached to it. -/
theorem cascade_delete_no_orphans :
    (∀ (s : DBState) (tid : Nat),
        (deleteTitle s tid).reviews.all (fun r => !(r.title_id == tid)) = true)
    ∧ (∀ (s : DBState) (tid : Nat),
        s.comments.all
            (fun c => s.reviews.any (fun r => r.id == c.review_id)) = true →
        (deleteTitle s tid).comments.all
            (fun c => (deleteTitle s tid).reviews.any
              (fun r => r.id == c.review_id)) = true)
    ∧ (∀ (s : DBState) (rid : Nat),
        (deleteReview s rid).reviews.all (fun r => !(r.id == rid)) = true
        ∧ (deleteReview s rid).comments.all
            (fun c => !(c.review_id == rid)) = true) := by
  refine ⟨?_, ?_, ?_⟩
  · intro s tid
    simp only [deleteTitle, List.all_eq_true, List.mem_filter]
    intro r hr
    exact hr.2
  · intro s tid hint
    simp only [List.all_eq_true]
    intro c hc
    simp only [deleteTitle, List.mem_filter] at hc
    obtain ⟨hcs, hnd⟩ := hc
    simp only [List.all_eq_true] at hint
    have hx := hint c hcs
    simp only [List.any_eq_true] at hx
    obtain ⟨r, hrs, hrid⟩ := hx
    simp only [deleteTitle, List.any_eq_true]
    refine ⟨r, List.mem_filter.mpr ⟨hrs, ?_⟩, hrid⟩
    simp only [Bool.not_eq_true']
    by_contra hne
    have htid : r.title_id == tid := by
      cases hb : r.title_id == tid
      · exact absurd hb hne
      · rfl
    have : (s.reviews.filter (fun x => x.title_id == tid)).any
        (fun x => x.id == c.review_id) = true := by
      simp only [List.any_eq_true]
      exact ⟨r, List.mem_filter.mpr ⟨hrs, htid⟩, hrid⟩
    simp [this] at hnd
  · intro s rid
    constructor
    · simp only [deleteReview, List.all_eq_true, List.mem_filter]
      intro r hr
      exact hr.2
    · simp only [deleteReview, List.all_eq_true, List.mem_filter]
      intro c hc
      exact hc.2

/-- C7 witness: deleting title 1 from a two-title state removes its review
and that review's comment while the surviving comment still references a
surviving review; deleting review 5 leaves no comment pointing at it. -/
theorem cascade_delete_no_orphans_witness :
    (deleteTitle
        ⟨[⟨1, "t"⟩, ⟨2, "u"⟩],
         [⟨1, "good", 5, "2023", 1, 1⟩, ⟨2, "bad", 2, "2023", 2, 1⟩],
         [⟨1, "c1", "2023", 1, 1⟩, ⟨2, "c2", "2023", 2, 1⟩]⟩ 1).reviews.all
      (fun r => !(r.title_id == 1)) = true
    ∧ (deleteTitle
        ⟨[⟨1, "t"⟩, ⟨2, "u"⟩],
         [⟨1, "good", 5, "2023", 1, 1⟩, ⟨2, "bad", 2, "2023", 2, 1⟩],
         [⟨1, "c1", "2023", 1, 1⟩, ⟨2, "c2", "2023", 2, 1⟩]⟩ 1).comments.all
        (fun c => (deleteTitle
          ⟨[⟨1, "t"⟩, ⟨2, "u"⟩],
           [⟨1, "good", 5, "2023", 1, 1⟩, ⟨2, "bad", 2, "2023", 2, 1⟩],
           [⟨1, "c1", "2023", 1, 1⟩, ⟨2, "c2", "2023", 2, 1⟩]⟩ 1).reviews.any
            (fun r => r.id == c.review_id)) = true
    ∧ (deleteReview ⟨[], [⟨5, "x", 1, "2023", 1, 1⟩], [⟨9, "c", "2023", 5, 1⟩]⟩
        5).comments.all (fun c => !(c.review_id == 5)) = true :=
  ⟨cascade_delete_no_orphans.1
      ⟨[⟨1, "t"⟩, ⟨2, "u"⟩],
       [⟨1, "good", 5, "2023", 1, 1⟩, ⟨2, "bad", 2, "2023", 2, 1⟩],
       [⟨1, "c1", "2023", 1, 1⟩, ⟨2, "c2", "2023", 2, 1⟩]⟩ 1,
   cascade_delete_no_orphans.2.1
      ⟨[⟨1, "t"⟩, ⟨2, "u"⟩],
       [⟨1, "good", 5, "2023", 1, 1⟩, ⟨2, "bad", 2, "2023", 2, 1⟩],
       [⟨1, "c1", "2023", 1, 1⟩, ⟨2, "c2", "2023", 2, 1⟩]⟩ 1 rfl,
   (cascade_delete_no_orphans.2.2
      ⟨[], [⟨5, "x", 1, "2023", 1, 1⟩], [⟨9, "c", "2023", 5, 1⟩]⟩ 5).2⟩

/-- C2: the role check in AdminOrSuperAdminUserSerializer.validate is
inverted. With a well-formed username and email, every role of the
enumerated set user, moderator, admin is rejected with the nonexistent
role error, while a role outside the set passes validation — the opposite
of what the claim (and the error message in the source) states. -/
theorem admin_role_check_inverted :
    AdminOrSuperAdminUserSerializer_validate "alice" "a@b.com" "user"
      = .error "nonexistent role"
    ∧ AdminOrSuperAdminUserSerializer_validate "alice" "a@b.com" "moderator"
      = .error "nonexistent role"
    ∧ AdminOrSuperAdminUserSerializer_validate "alice" "a@b.com" "admin"
      = .error "nonexistent role"
    ∧ AdminOrSuperAdminUserSerializer_validate "alice" "a@b.com" "hacker"
      = .ok () :=
  ⟨rfl, rfl, rfl, rfl⟩

/-- C3: SignUpSerializer.validate never reads the submitted email — its
result is the same for any two emails — and it applies the email
string-format validator to the username, so the sign-up of alice with the
well-formed email alice at example.com is rejected as an invalid email. -/
theorem signup_email_validator_misapplied :
    (∀ u e1 e2 : String,
        SignUpSerializer_validate u e1 = SignUpSerializer_validate u e2)
    ∧ SignUpSerializer_validate "alice" "alice@example.com"
      = .error "invalid email" :=
  ⟨fun _ _ _ => rfl, rfl⟩

/-- C4: both create methods stringify the function object
get_unique_confirmation_code instead of calling it, so every pair of
created users — through either serializer — receives the identical
confirmation code, never a fresh distinct one. -/
theorem confirmation_code_constant :
    ∀ v1 v2 : ValidatedUser,
      (UserSerializer_create v1).confirmation_code
        = (UserSerializer_create v2).confirmation_code
      ∧ (UserSerializer_create v1).confirmation_code
        = (AdminOrSuperAdminUserSerializer_create v2).confirmation_code
      ∧ (AdminOrSuperAdminUserSerializer_create v1).confirmation_code
        = (AdminOrSuperAdminUserSerializer_create v2).confirmation_code :=
  fun _ _ => ⟨rfl, rfl, rfl⟩

/-- C5: token validation rejects an empty confirmation code — whether the
field is absent or blank — with a validation error; and any request with a
non-empty, length-bounded confirmation code and a valid length-bounded
username passes validation with the data returned. -/
theorem token_empty_code_rejected :
    (∀ u : Option String,
        isErr (TokenSerializer_run_validation u none) = true)
    ∧ (∀ u : Option String,
        isErr (TokenSerializer_run_validation u (some "")) = true)
    ∧ (∀ u c : String,
        username_validate u = .ok () → u.length ≤ 150 →
        c ≠ "" → c.length ≤ MAX_CODE_LENGTH →
        TokenSerializer_run_validation (some u) (some c)
          = .ok (u, some c)) := by
  refine ⟨?_, ?_, ?_⟩
  · intro u
    unfold TokenSerializer_run_validation
    cases hu : char_field_run 150 u with
    | error e => simp [isErr]
    | ok v => simp [char_field_run, isErr]
  · intro u
    unfold TokenSerializer_run_validation
    cases hu : char_field_run 150 u with
    | error e => simp [isErr]
    | ok v => simp [char_field_run, isErr]
  · intro u c huv hul hc hcl
    have hu0 : u ≠ "" := by
      intro h
      subst h
      simp [username_validate] at huv
    have h1 : char_field_run 150 (some u) = .ok u := by
      simp only [char_field_run]
      rw [if_neg hu0, if_neg (by omega : ¬ 150 < u.length)]
    have h2 : char_field_run MAX_CODE_LENGTH (some c) = .ok c := by
      simp only [char_field_run]
      rw [if_neg hc, if_neg (by omega : ¬ MAX_CODE_LENGTH < c.length)]
    simp only [TokenSerializer_run_validation, h1, h2,
      TokenSerializer_validate, huv]

/-- C5 witness: with username alice, a missing and a blank confirmation
code are both rejected, while the code 12345 passes and the data is
returned. -/
theorem token_empty_code_rejected_witness :
    isErr (TokenSerializer_run_validation (some "alice") none) = true
    ∧ isErr (TokenSerializer_run_validation (some "alice") (some "")) = true
    ∧ TokenSerializer_run_validation (some "alice") (some "12345")
      = .ok ("alice", some "12345") :=
  ⟨token_empty_code_rejected.1 (some "alice"),
   token_empty_code_rejected.2.1 (some "alice"),
   token_empty_code_rejected.2.2 "alice" "12345" rfl (by decide)
     (by decide) (by decide)⟩

/-- C6: the slug field the CommentSerializer declares is named reviews,
but a Comment instance's relation to its parent is the model field review,
so the attribute lookup fails and serializing any Comment raises an
AttributeError instead of producing the claimed JSON object. -/
theorem comment_serialization_attribute_error :
    ∀ c : CommentObj,
      serializeComment c = .error "AttributeError: reviews" :=
  fun _ => rfl

/-- C8: serializing a Review yields exactly the fields id, author, title,
text, score, pub_date, with the author rendered as the author's username
and the title rendered as the title's name. -/
theorem review_serialization_shape :
    ∀ r : ReviewObj,
      (serializeReview r).map Prod.fst
        = ["id", "author", "title", "text", "score", "pub_date"]
      ∧ (serializeReview r).lookup "id" = some (.num r.id)
      ∧ (serializeReview r).lookup "author" = some (.str r.author.username)
      ∧ (serializeReview r).lookup "title" = some (.str r.title.name)
      ∧ (serializeReview r).lookup "text" = some (.str r.text)
      ∧ (serializeReview r).lookup "score" = some (.num r.score)
      ∧ (serializeReview r).lookup "pub_date" = some (.str r.pub_date) :=
  fun _ => ⟨rfl, rfl, rfl, rfl, rfl, rfl, rfl⟩

/-- C9: updating an own profile through MeSerializer never changes the
stored role, whatever role value the request supplies, while each of the
writable fields email, username, first name, last name, bio takes any
value the request supplies for it. -/
theorem me_role_read_only :
    ∀ (inst : UserRec) (inp : MeInput),
      (MeSerializer_save inst inp).role = inst.role
      ∧ (∀ x, inp.email = some x → (MeSerializer_save inst inp).email = x)
      ∧ (∀ x, inp.username = some x →
          (MeSerializer_save inst inp).username = x)
      ∧ (∀ x, inp.first_name = some x →
          (MeSerializer_save inst inp).first_name = x)
      ∧ (∀ x, inp.last_name = some x →
          (MeSerializer_save inst inp).last_name = x)
      ∧ (∀ x, inp.bio = some x → (MeSerializer_save inst inp).bio = x) := by
  intro inst inp
  refine ⟨rfl, ?_, ?_, ?_, ?_, ?_⟩ <;>
    · intro x h
      simp [MeSerializer_save, MeSerializer_update, MeSerializer_to_internal, h]

/-- C9 witness: a request that supplies role admin together with a new
email and bio leaves the stored role user untouched while the email and
bio take the supplied values. -/
theorem me_role_read_only_witness :
    (MeSerializer_save ⟨"bob", "b@x.com", "", "", "old", "user", "c1"⟩
        ⟨some "new@x.com", none, none, none, some "newbio", some "admin"⟩).role
      = "user"
    ∧ (MeSerializer_save ⟨"bob", "b@x.com", "", "", "old", "user", "c1"⟩
        ⟨some "new@x.com", none, none, none, some "newbio", some "admin"⟩).email
      = "new@x.com"
    ∧ (MeSerializer_save ⟨"bob", "b@x.com", "", "", "old", "user", "c1"⟩
        ⟨some "new@x.com", none, none, none, some "newbio", some "admin"⟩).bio
      = "newbio" :=
  ⟨(me_role_read_only ⟨"bob", "b@x.com", "", "", "old", "user", "c1"⟩
      ⟨some "new@x.com", none, none, none, some "newbio", some "admin"⟩).1,
   (me_role_read_only ⟨"bob", "b@x.com", "", "", "old", "user", "c1"⟩
      ⟨some "new@x.com", none, none, none, some "newbio", some "admin"⟩).2.1
      "new@x.com" rfl,
   (me_role_read_only ⟨"bob", "b@x.com", "", "", "old", "user", "c1"⟩
      ⟨some "new@x.com", none, none, none, some "newbio", some "admin"⟩).2.2.2.2.2
      "newbio" rfl⟩

end ApiYamdb
